import Mathlib

/-
Shallow embedding of the unwrapped-fm music-analysis backend
(src/backend/src/unwrapped/music/...) together with theorems settling the
spec claims about it.

Modelling conventions:
* Python floats are modelled as rationals (`ℚ`); every numeric literal the
  code manipulates is an exact decimal, and only order comparisons and
  clamping matter to the claims.
* Timestamps (`datetime.now(UTC)`) are modelled as integers/naturals passed
  in explicitly.
* `dict`-shaped data flowing between the collector, the AI client and the
  persistence layer is modelled as records; a key that a given producer may
  omit is an `Option` field, and the raising Python subscript `d[k]` is an
  explicit `match` that produces a key error on `none`.
* Database rows of the `musicanalysisresult` table are the `Job` record; a
  session/table is a `List Job`.  SQL commits that can violate the unique
  user constraint go through `insert_job`, which models the constraint.
* External effects (the Spotify HTTP client, the text-generation provider,
  `secrets.choice`) are oracles passed in as explicit arguments whose
  outcomes are `Except`/function values; exceptions are `Except.error`
  carrying the message text.  Messages produced by Python formatting of
  nested exception objects are abstracted to plain string concatenation,
  and long f-string literals are abbreviated (their content is not load
  bearing for any claim); apostrophes and brace characters of the original
  literals are elided.
-/

namespace UnwrappedFM

/-- Status values of `AnalysisStatus` in music/models.py. -/
inductive AnalysisStatus where
  | pending
  | processing
  | completed
  | failed
deriving DecidableEq, Repr

/-- One row of the `MusicAnalysisResult` table (music/models.py).  Field
defaults mirror the model defaults: `status` defaults to PENDING and every
result field to NULL. -/
structure Job where
  id : Nat
  user_id : Nat
  status : AnalysisStatus := .pending
  error_message : Option String := none
  rating_text : Option String := none
  rating_description : Option String := none
  x_axis_pos : Option ℚ := none
  y_axis_pos : Option ℚ := none
  share_token : Option String := none
  created_at : Int := 0
  started_at : Option Int := none
  completed_at : Option Int := none
deriving DecidableEq, Repr

/-- The analysis table: a list of rows. -/
abbrev JobTable := List Job

/-- Row lookup by share token, as `select ... where share_token == token`
with `scalar_one_or_none` (first match). -/
def findByShareToken (db : JobTable) (tok : String) : Option Job :=
  db.find? (fun j => j.share_token == some tok)

/-- Row lookup by primary key, as in background_tasks.py lines 31-33. -/
def findById (db : JobTable) (analysis_id : Nat) : Option Job :=
  db.find? (fun j => j.id == analysis_id)

/-- Row lookup by owner, as `select ... where user_id == user_id`. -/
def findByUser (db : JobTable) (uid : Nat) : Option Job :=
  db.find? (fun j => j.user_id == uid)

/-- Commit of an in-place row update: every row with the same primary key is
replaced by the new value. -/
def replaceJob (db : JobTable) (a : Job) : JobTable :=
  db.map (fun j => if j.id == a.id then a else j)

/-- Commit of an INSERT.  The table is unique-indexed on `user_id` (the
one-analysis-per-user constraint of music/models.py lines 23-25) and on
`share_token`; a violating insert is rejected and leaves the table
unchanged. -/
def insert_job (db : JobTable) (j : Job) : Except String JobTable :=
  if db.any (fun r => r.user_id == j.user_id) then
    .error ("UNIQUE constraint failed: musicanalysisresult.user_id")
  else if j.share_token.isSome && db.any (fun r => r.share_token == j.share_token) then
    .error ("UNIQUE constraint failed: musicanalysisresult.share_token")
  else
    .ok (db ++ [j])

/-! ## Share token issuer (music/sharing.py) -/

/-- The 62-symbol alphabet `string.ascii_letters + string.digits` used by
`generate_share_token`. -/
def alphabet : List Char :=
  "abcdefghijklmnopqrstuvwxyzABCDEFGHIJKLMNOPQRSTUVWXYZ0123456789".toList

/-- Model of `generate_share_token` (sharing.py lines 12-19).  The
cryptographically secure source behind `secrets.choice` is an oracle
`choice` giving one index per position; `secrets.choice(alphabet)` is the
element of the alphabet it selects. -/
def generate_share_token (choice : Nat → Nat) : String :=
  String.mk ((List.range 15).map (fun i => alphabet.getD (choice i % alphabet.length) 'a'))

/-- Retry loop body of `generate_unique_share_token` (sharing.py lines
29-43): `fuel` attempts remain, `i` numbers the current attempt so each
attempt draws fresh randomness `choices i`. -/
def genUniqueAux (choices : Nat → Nat → Nat) (db : JobTable) :
    Nat → Nat → Except String String
  | 0, _ => .error ("Failed to generate unique share token after maximum attempts")
  | fuel + 1, i =>
    let token := generate_share_token (choices i)
    if (findByShareToken db token).isSome then
      genUniqueAux choices db fuel (i + 1)
    else
      .ok token

/-- Model of `generate_unique_share_token` (sharing.py lines 22-43):
`max_attempts = 10` draws, each checked for uniqueness against the table;
`RuntimeError` once the attempts are exhausted. -/
def generate_unique_share_token (choices : Nat → Nat → Nat) (db : JobTable) :
    Except String String :=
  genUniqueAux choices db 10 0

/-! ## Spotify data shapes

The upstream JSON payloads are modelled as typed records holding exactly the
keys the code reads.  A `.get(k, default)` read of a possibly-missing key is
an `Option` field read with `getD`. -/

/-- The three `time_range` values iterated by the collector. -/
inductive TimeRange where
  | short_term
  | medium_term
  | long_term
deriving DecidableEq, Repr

/-- Iteration order `["short_term", "medium_term", "long_term"]`. -/
def time_ranges : List TimeRange := [.short_term, .medium_term, .long_term]

/-- A track item: the code reads `track["id"]`, `track.get("popularity", 0)`
and `track.get("name", "")`. -/
structure Track where
  id : String
  popularity : Option ℚ := none
  name : String := ""
deriving DecidableEq, Repr

/-- An artist item: the code reads `artist.get("id", "")`,
`artist.get("genres", [])` and `artist.get("name", "")`. -/
structure Artist where
  id : String := ""
  genres : List String := []
  name : String := ""
deriving DecidableEq, Repr

/-- A recently-played item, read as `item["track"]["id"]`. -/
structure RecentItem where
  track : Track
deriving DecidableEq, Repr

/-- A top-tracks response; the code reads `.get("items", [])`. -/
structure Page where
  items : List Track := []
deriving DecidableEq, Repr

/-- A top-artists response. -/
structure ArtistPage where
  items : List Artist := []
deriving DecidableEq, Repr

/-- A recently-played response. -/
structure RecentPage where
  items : List RecentItem := []
deriving DecidableEq, Repr

/-- One audio-features entry; the batch endpoint can return `null` entries,
hence the `Option` in `FeaturesPage`.  Keys are read with
`f.get("energy", 0)` and friends. -/
structure AudioFeatures where
  energy : Option ℚ := none
  valence : Option ℚ := none
  danceability : Option ℚ := none
  acousticness : Option ℚ := none
  instrumentalness : Option ℚ := none
  speechiness : Option ℚ := none
deriving DecidableEq, Repr

/-- A batch audio-features response; the code reads
`.get("audio_features", [])`. -/
structure FeaturesPage where
  audio_features : List (Option AudioFeatures) := []
deriving DecidableEq, Repr

/-- The `music_data` dict built by the collector, one field per key it
stores.  Every key is always present once collection finishes. -/
structure MusicData where
  top_tracks_short_term : Page := {}
  top_tracks_medium_term : Page := {}
  top_tracks_long_term : Page := {}
  top_artists_short_term : ArtistPage := {}
  top_artists_medium_term : ArtistPage := {}
  top_artists_long_term : ArtistPage := {}
  recently_played : RecentPage := {}
  audio_features : List (Option AudioFeatures) := []
deriving DecidableEq, Repr

/-- Read of `music_data[f"top_tracks_{time_range}"]`. -/
def MusicData.top_tracks (md : MusicData) : TimeRange → Page
  | .short_term => md.top_tracks_short_term
  | .medium_term => md.top_tracks_medium_term
  | .long_term => md.top_tracks_long_term

/-- Read of `music_data[f"top_artists_{time_range}"]`. -/
def MusicData.top_artists (md : MusicData) : TimeRange → ArtistPage
  | .short_term => md.top_artists_short_term
  | .medium_term => md.top_artists_medium_term
  | .long_term => md.top_artists_long_term

/-- The Spotify HTTP client (music/spotify.py) as an outcome oracle: each
endpoint either returns a parsed payload or raises.  The access token and
the constant `limit=50` arguments select the same outcome on every call of
one collection run, so they are dropped from the oracle argument list. -/
structure SpotifyClient where
  get_user_top_tracks : TimeRange → Except String Page
  get_user_top_artists : TimeRange → Except String ArtistPage
  get_recently_played : Except String RecentPage
  get_audio_features : List String → Except String FeaturesPage

/-! ## Spotify data collector (music/spotify_data_collector.py)

`analysis_service._fetch_user_music_data` (analysis_service.py lines 70-145)
duplicates the collector logic statement for statement (only the logging
calls differ), so this embedding serves both call sites. -/

/-- Per-window top-tracks slot of `_fetch_top_items` (lines 44-59): the
response on success, the `{"items": []}` placeholder on failure. -/
def top_tracks_slot (c : SpotifyClient) (tr : TimeRange) : Page :=
  match c.get_user_top_tracks tr with
  | .ok p => p
  | .error _ => {}

/-- Per-window top-artists slot of `_fetch_top_items` (lines 61-75). -/
def top_artists_slot (c : SpotifyClient) (tr : TimeRange) : ArtistPage :=
  match c.get_user_top_artists tr with
  | .ok p => p
  | .error _ => {}

/-- Recently-played slot of `_fetch_recently_played` (lines 77-89). -/
def recently_played_slot (c : SpotifyClient) : RecentPage :=
  match c.get_recently_played with
  | .ok p => p
  | .error _ => {}

/-- Set insertion used to model Python `set.update` followed by `list(...)`:
the set is modelled as a duplicate-free list in first-insertion order. -/
def insertUniq (acc : List String) (x : String) : List String :=
  if x ∈ acc then acc else acc ++ [x]

/-- First-occurrence deduplication of a list of identifiers. -/
def dedupIds (l : List String) : List String :=
  l.foldl insertUniq []

/-- The `track_ids` set built in `_fetch_audio_features` (lines 95-105):
ids of all top tracks across the three windows, then of the recently-played
tracks. -/
def collected_track_ids (md : MusicData) : List String :=
  dedupIds
    ((time_ranges.flatMap (fun tr => (md.top_tracks tr).items.map Track.id)) ++
      md.recently_played.items.map (fun item => item.track.id))

/-- Batching `range(0, len(track_ids_list), 100)` with `[i : i + 100]`
slices. -/
def chunks100 : List String → List (List String)
  | [] => []
  | x :: xs => ((x :: xs).take 100) :: chunks100 ((x :: xs).drop 100)
termination_by l => l.length
decreasing_by
  simp [List.length_drop]
  omega

/-- Audio-features accumulation of `_fetch_audio_features` (lines 107-128):
each batch extends the list on success and is skipped on failure. -/
def audio_features_slot (c : SpotifyClient) (md : MusicData) :
    List (Option AudioFeatures) :=
  let track_ids_list := collected_track_ids md
  if track_ids_list.isEmpty then []
  else
    (chunks100 track_ids_list).foldl
      (fun acc batch =>
        match c.get_audio_features batch with
        | .ok fp => acc ++ fp.audio_features
        | .error _ => acc)
      []

/-- Model of `SpotifyDataCollector.fetch_user_music_data` (lines 19-38).
`token_result` is the outcome of
`TokenRefreshService.get_valid_access_token`; its failure (and only its
failure) aborts the whole collection, wrapped by the enclosing
`except` clause as `SpotifyAPIError(f"Failed to fetch music data: {e}")`. -/
def fetch_user_music_data (token_result : Except String String)
    (c : SpotifyClient) : Except String MusicData :=
  match token_result with
  | .error e => .error ("Failed to fetch music data: " ++ e)
  | .ok _ =>
    let md : MusicData :=
      { top_tracks_short_term := top_tracks_slot c .short_term
        top_tracks_medium_term := top_tracks_slot c .medium_term
        top_tracks_long_term := top_tracks_slot c .long_term
        top_artists_short_term := top_artists_slot c .short_term
        top_artists_medium_term := top_artists_slot c .medium_term
        top_artists_long_term := top_artists_slot c .long_term
        recently_played := recently_played_slot c
        audio_features := [] }
    .ok { md with audio_features := audio_features_slot c md }

/-! ## Derived statistics

Every statistic the summariser and the fallback engines divide by is guarded
in the source by a truthiness test of its input; the helpers below embed the
statement pair `stat = 0; if xs: stat = .../...` verbatim. -/

/-- Average popularity: `ai_client._prepare_music_summary` lines 147-150 and
both `_fallback_analysis` variants (background_tasks.py lines 157-158,
analysis_service.py lines 197-198). -/
def avg_popularity (pops : List ℚ) : ℚ :=
  if pops.isEmpty then 0 else pops.sum / pops.length

/-- Mainstream score: `_prepare_music_summary` lines 158-159. -/
def mainstream_score (pops : List ℚ) : ℚ :=
  if pops.isEmpty then 0 else avg_popularity pops / 100

/-- Appearance-count bump of the `artist_appearances` dict
(`_prepare_music_summary` lines 162-170); the dict is an association list in
first-insertion order. -/
def bumpAppearance (apps : List (String × Nat)) (k : String) : List (String × Nat) :=
  if apps.any (fun p => p.1 == k) then
    apps.map (fun p => if p.1 == k then (p.1, p.2 + 1) else p)
  else
    apps ++ [(k, 1)]

/-- The `artist_appearances` dict: every artist of every window bumps its id
unless the id is falsy (`if artist_id:`). -/
def artist_appearances (md : MusicData) : List (String × Nat) :=
  (time_ranges.flatMap (fun tr => (md.top_artists tr).items)).foldl
    (fun apps a => if a.id == "" then apps else bumpAppearance apps a.id)
    []

/-- Artist loyalty score (`_prepare_music_summary` lines 173-175): fraction
of appearing artists with more than one window, `0` when no artist
appeared. -/
def artist_loyalty_score (apps : List (String × Nat)) : ℚ :=
  if apps.isEmpty then 0
  else (apps.countP (fun p => decide (p.2 > 1)) : ℚ) / apps.length

/-- Audio-feature average (analysis_service.py lines 200-217): `0` unless
`audio_features` is non-empty and holds at least one non-null entry, else
the average of `f.get(key, 0)` over the non-null entries. -/
def avg_feature (get : AudioFeatures → ℚ) (feats : List (Option AudioFeatures)) : ℚ :=
  if feats.isEmpty then 0
  else
    let valid := feats.filterMap id
    if valid.isEmpty then 0
    else (valid.map get).sum / valid.length

/-- The pooled `all_popularities` list: `track.get("popularity", 0)` over the
top tracks of the three windows in order. -/
def all_popularities (md : MusicData) : List ℚ :=
  time_ranges.flatMap (fun tr => (md.top_tracks tr).items.map (fun t => t.popularity.getD 0))

/-- The `genres` set: union of `artist.get("genres", [])` over every artist
of every window, as a first-occurrence list. -/
def genres_of (md : MusicData) : List String :=
  dedupIds (time_ranges.flatMap (fun tr => (md.top_artists tr).items.flatMap Artist.genres))

/-- Python `f"{x:.0f}"` rendering, abstracted as the decimal of the nearest
integer (the half-to-even tie rule of the original is not relied on by any
claim). -/
def pyFormat0 (x : ℚ) : String := toString (round x)

/-- Python `f"{x:.1f}"` rendering, abstracted likewise via tenths. -/
def pyFormat1 (x : ℚ) : String := toString (round (10 * x))

/-! ## Analysis result dicts -/

/-- The dynamically-shaped analysis-result dict exchanged between the AI
client, the fallback engines and the persistence code.  Each producer
populates only some keys: the text-generation reply carries the four
schema fields (and whatever extras the model added), both fallback engines
and the no-data default carry `rating_text`, `rating_description`,
`x_axis_pos`, `y_axis_pos`. -/
structure AnalysisDict where
  rating_text : Option String := none
  rating_description : Option String := none
  critical_acclaim_score : Option ℚ := none
  music_snob_score : Option ℚ := none
  x_axis_pos : Option ℚ := none
  y_axis_pos : Option ℚ := none
deriving DecidableEq, Repr

/-! ## AI inference client (music/ai_client.py) -/

/-- Clamp `max(-1.0, min(1.0, float(x)))` applied to both score fields
(ai_client.py lines 68-74). -/
def clamp_score (x : ℚ) : ℚ := max (-1) (min 1 x)

/-- Required-field check and clamping of `analyze_music_taste` (ai_client.py
lines 57-76): the four schema fields must be present, in the checked order,
and the two score fields are clamped in place (extra keys of the reply are
kept). -/
def analyze_music_taste_validate (reply : AnalysisDict) : Except String AnalysisDict :=
  if reply.rating_text.isNone then
    .error ("Missing required field: rating_text")
  else if reply.rating_description.isNone then
    .error ("Missing required field: rating_description")
  else if reply.critical_acclaim_score.isNone then
    .error ("Missing required field: critical_acclaim_score")
  else if reply.music_snob_score.isNone then
    .error ("Missing required field: music_snob_score")
  else
    .ok { reply with
      critical_acclaim_score := reply.critical_acclaim_score.map clamp_score
      music_snob_score := reply.music_snob_score.map clamp_score }

/-- Model of `MusicAnalysisAI.analyze_music_taste` (ai_client.py lines
24-81).  `ai_reply` is the outcome of the chat-completion call and JSON
parse: an error for a network failure, an empty body, or a body that does
not parse.  Any failure, including a missing required field, is re-raised
as  `SpotifyAPIError`; the differing wrapper texts of the JSON-decode and
generic clauses are abstracted to one prefix. -/
def analyze_music_taste (ai_reply : Except String AnalysisDict) :
    Except String AnalysisDict :=
  match ai_reply with
  | .error e => .error ("AI analysis failed: " ++ e)
  | .ok reply =>
    match analyze_music_taste_validate reply with
    | .error e => .error ("AI analysis failed: " ++ e)
    | .ok r => .ok r

/-! ## Fallback rule engines

Two near-identical decision trees exist: background_tasks._fallback_analysis
(keyed on genre diversity in the mid-range branch) and
MusicAnalysisService._fallback_analysis / AnalysisCoordinator._fallback_analysis
(keyed on audio-feature averages).  Both return a four-key result dict.
Description literals are abbreviated; the interpolated statistic is kept. -/

/-- Builder of the four-key result dict every fallback branch returns. -/
def verdict (rt desc : String) (x y : ℚ) : AnalysisDict :=
  { rating_text := some rt
    rating_description := some desc
    x_axis_pos := some x
    y_axis_pos := some y }

/-- Total top-track count summed over the three windows (`total_tracks`). -/
def total_tracks (md : MusicData) : Nat :=
  (time_ranges.map (fun tr => (md.top_tracks tr).items.length)).sum

/-- Check `"mainstream" in str(genres).lower()`: the substring cannot span
two elements of the set representation (its separator characters do not
occur in `"mainstream"`), so it holds exactly when some genre, lowercased,
contains it. -/
def mentions_mainstream (genres : List String) : Bool :=
  genres.any (fun g => decide ("mainstream".toList <:+: g.toLower.toList))

/-- Shared mainstream branch (`avg_popularity > 70`) of both fallback
variants. -/
def fallback_mainstream_branch (genres : List String) (avg : ℚ) : AnalysisDict :=
  if genres.contains ("pop") || mentions_mainstream genres then
    verdict ("BASIC MAINSTREAM")
      ("Walking Billboard Hot 100 playlist with an average track popularity of "
        ++ pyFormat0 avg ++ ".")
      0.7 (-0.3)
  else
    verdict ("POPULAR TASTE")
      ("You like what is popular. Your " ++ pyFormat0 avg
        ++ " average popularity score suggests you are predictable.")
      0.5 0.2

/-- Shared underground branch (`avg_popularity < 30`) of both fallback
variants. -/
def fallback_underground_branch (genres : List String) (avg : ℚ) : AnalysisDict :=
  if genres.any (fun g => g ∈ ["experimental", "noise", "avant-garde"]) then
    verdict ("PRETENTIOUS HIPSTER")
      ("Your average popularity of " ++ pyFormat0 avg
        ++ " screams I-liked-them-before-they-were-cool energy.")
      (-0.8) (-0.6)
  else
    verdict ("UNDERGROUND EXPLORER")
      ("Hidden gems with your " ++ pyFormat0 avg ++ " average popularity.")
      (-0.5) 0.4

namespace BackgroundTasks

/-- Model of `background_tasks._fallback_analysis` (lines 135-208): the
mid-range branch is keyed on `genre_count`. -/
def fallback_analysis (md : MusicData) : AnalysisDict :=
  let genres := genres_of md
  let avg := avg_popularity (all_popularities md)
  let genre_count := genres.length
  if avg > 70 then fallback_mainstream_branch genres avg
  else if avg < 30 then fallback_underground_branch genres avg
  else if genre_count > 10 then
    verdict ("GENRE HOPPER")
      ("You listen to " ++ toString genre_count
        ++ " different genres like you are trying to collect them all.")
      0.1 0.8
  else if genre_count < 3 then
    verdict ("ONE-TRACK MIND")
      ("With only " ++ toString genre_count
        ++ " genres in your rotation, you have found your lane.")
      (-0.2) (-0.4)
  else
    verdict ("BALANCED LISTENER")
      ("You listen to " ++ toString genre_count ++ " genres with "
        ++ toString (total_tracks md) ++ " tracks tracked. Remarkably balanced.")
      0 0.1

end BackgroundTasks

namespace AnalysisService

/-- Model of `MusicAnalysisService._fallback_analysis` (analysis_service.py
lines 175-266): the mid-range branch is keyed on audio-feature averages. -/
def fallback_analysis (md : MusicData) : AnalysisDict :=
  let genres := genres_of md
  let avg := avg_popularity (all_popularities md)
  let avg_energy := avg_feature (fun f => f.energy.getD 0) md.audio_features
  let avg_valence := avg_feature (fun f => f.valence.getD 0) md.audio_features
  let avg_danceability := avg_feature (fun f => f.danceability.getD 0) md.audio_features
  if avg > 70 then fallback_mainstream_branch genres avg
  else if avg < 30 then fallback_underground_branch genres avg
  else if avg_energy > 0.7 && avg_danceability > 0.7 then
    verdict ("PARTY ANIMAL")
      ("Energy at " ++ pyFormat1 avg_energy ++ " and danceability at "
        ++ pyFormat1 avg_danceability ++ ".")
      0.3 0.8
  else if avg_valence < 0.3 then
    verdict ("EMO SADBOY")
      ("A happiness factor of " ++ pyFormat1 avg_valence ++ ".")
      (-0.2) (-0.7)
  else
    verdict ("BALANCED LISTENER")
      "Remarkably balanced. Not too mainstream, not too hipster."
      0 0.1

end AnalysisService

/-- The fixed no-data verdict returned when no window has top tracks and
nothing was recently played (background_tasks.py lines 113-120,
analysis_service.py lines 158-165). -/
def mysterious_listener : AnalysisDict :=
  verdict ("MYSTERIOUS LISTENER")
    "Your music taste is so unique that even Spotify does not know what to make of it."
    0 0

/-- The `has_any_data` probe (background_tasks.py lines 107-111): some
window has a non-empty top-tracks item list. -/
def has_any_data (md : MusicData) : Bool :=
  time_ranges.any (fun tr => !(md.top_tracks tr).items.isEmpty)

/-- Model of `_analyze_music_with_ai` (background_tasks.py lines 104-132,
identical to AnalysisCoordinator lines 39-69 except for the fallback
variant used, which is passed in as `fallback`): the no-data default
short-circuits, otherwise the AI outcome is taken and any AI failure falls
back. -/
def analyze_music_with_ai (fallback : MusicData → AnalysisDict)
    (ai_outcome : Except String AnalysisDict) (md : MusicData) : AnalysisDict :=
  if !has_any_data md && md.recently_played.items.isEmpty then
    mysterious_listener
  else
    match ai_outcome with
    | .ok r => r
    | .error _ => fallback md

/-! ## Background task (music/background_tasks.py) -/

/-- External outcomes of one background run: the token-service outcome, the
Spotify client, the raw text-generation reply, the random source for share
tokens, and the two wall-clock readings taken at the PROCESSING and
terminal commits. -/
structure TaskEnv where
  token_result : Except String String
  client : SpotifyClient
  ai_reply : Except String AnalysisDict
  choices : Nat → Nat → Nat
  now_start : Int := 0
  now_done : Int := 1

/-- Field-by-field result write of `process_music_analysis_task` lines
63-67.  Each dict subscript `analysis_result[k]` raises a key error when the
key is absent, leaving the assignments already made in place; the error
carries the partially-updated row. -/
def write_results (a : Job) (d : AnalysisDict) (tok : String) :
    Except (Job × String) Job :=
  match d.rating_text with
  | none => .error (a, "KeyError: rating_text")
  | some rt =>
    let a := { a with rating_text := some rt }
    match d.rating_description with
    | none => .error (a, "KeyError: rating_description")
    | some rd =>
      let a := { a with rating_description := some rd }
      match d.x_axis_pos with
      | none => .error (a, "KeyError: x_axis_pos")
      | some x =>
        let a := { a with x_axis_pos := some x }
        match d.y_axis_pos with
        | none => .error (a, "KeyError: y_axis_pos")
        | some y =>
          .ok { a with y_axis_pos := some y, share_token := some tok }

namespace BackgroundTasks

/-- The PROCESSING commit of lines 40-42: status set, `started_at`
stamped. -/
def processing_row (env : TaskEnv) (a0 : Job) : Job :=
  { a0 with status := .processing, started_at := some env.now_start }

/-- The pipeline body of `process_music_analysis_task` (lines 53-70): runs
against the table state `db1` as committed after the PROCESSING update and
the in-session row `a1`.  An error carries the row as mutated so far
together with the exception message. -/
def task_step (env : TaskEnv) (db1 : JobTable) (a1 : Job) :
    Except (Job × String) Job :=
  match fetch_user_music_data env.token_result env.client with
  | .error e => .error (a1, e)
  | .ok md =>
    match generate_unique_share_token env.choices db1 with
    | .error e => .error (a1, e)
    | .ok tok =>
      (write_results a1
        (analyze_music_with_ai fallback_analysis
          (analyze_music_taste env.ai_reply) md) tok).map (fun a =>
        { a with
          status := .completed
          completed_at := some env.now_done
          error_message := none })

/-- Model of `process_music_analysis_task` (background_tasks.py lines
18-101).  A missing row aborts with no mutation (lines 35-37); otherwise the
row is committed as PROCESSING, the pipeline runs, and either the full
result block is committed as COMPLETED (lines 63-72) or the exception
handler commits FAILED with the message recorded (lines 93-99).  The
handler reuses the in-session `analysis` object, so partial result writes
made before a key error are committed with the FAILED state. -/
def process_music_analysis_task (env : TaskEnv) (db : JobTable)
    (analysis_id : Nat) : JobTable :=
  match findById db analysis_id with
  | none => db
  | some a0 =>
    match task_step env (replaceJob db (processing_row env a0))
        (processing_row env a0) with
    | .ok a2 => replaceJob (replaceJob db (processing_row env a0)) a2
    | .error (aerr, msg) =>
      replaceJob (replaceJob db (processing_row env a0))
        { aerr with
          status := .failed
          error_message := some msg
          completed_at := some env.now_done }

end BackgroundTasks

/-! ## Legacy synchronous service (music/analysis_service.py) -/

/-- The `MusicAnalysisResponse` payload (music/models.py lines 65-73). -/
structure MusicAnalysisResponse where
  rating_text : String
  rating_description : String
  x_axis_pos : ℚ
  y_axis_pos : ℚ
  share_token : String
  analyzed_at : Int
deriving DecidableEq, Repr

/-- The `PublicAnalysisResponse` payload (music/models.py lines 76-83). -/
structure PublicAnalysisResponse where
  rating_text : String
  rating_description : String
  x_axis_pos : ℚ
  y_axis_pos : ℚ
  analyzed_at : Int
deriving DecidableEq, Repr

namespace AnalysisService

/-- External outcomes of one legacy synchronous run; same shape as
`TaskEnv` with a single wall-clock reading for `created_at`. -/
structure LegacyEnv where
  token_result : Except String String
  client : SpotifyClient
  ai_reply : Except String AnalysisDict
  choices : Nat → Nat → Nat
  now : Int := 0

/-- Model of `MusicAnalysisService.analyze_user_music_taste`
(analysis_service.py lines 268-305).  The pipeline builds a fresh
`MusicAnalysisResult` row — `status` is never assigned, so the model
default PENDING applies — and inserts it; the surrounding `except` clause
wraps any failure (fetch, dict key access, token exhaustion, or the
unique-constraint rejection of the commit) as
`SpotifyAPIError(f"Failed to analyze music taste: {e}")`, and a failed
commit leaves the table unchanged.  Returns the outcome together with the
table after the call. -/
def analyze_user_music_taste (env : LegacyEnv) (db : JobTable)
    (uid fresh_id : Nat) : Except String MusicAnalysisResponse × JobTable :=
  match fetch_user_music_data env.token_result env.client with
  | .error e => (.error ("Failed to analyze music taste: " ++ e), db)
  | .ok md =>
    let analysis_result :=
      analyze_music_with_ai fallback_analysis (analyze_music_taste env.ai_reply) md
    match generate_unique_share_token env.choices db with
    | .error e => (.error ("Failed to analyze music taste: " ++ e), db)
    | .ok tok =>
      match analysis_result.rating_text with
      | none => (.error ("Failed to analyze music taste: KeyError: rating_text"), db)
      | some rt =>
        match analysis_result.rating_description with
        | none => (.error ("Failed to analyze music taste: KeyError: rating_description"), db)
        | some rd =>
          match analysis_result.x_axis_pos with
          | none => (.error ("Failed to analyze music taste: KeyError: x_axis_pos"), db)
          | some x =>
            match analysis_result.y_axis_pos with
            | none => (.error ("Failed to analyze music taste: KeyError: y_axis_pos"), db)
            | some y =>
              let row : Job :=
                { id := fresh_id
                  user_id := uid
                  rating_text := some rt
                  rating_description := some rd
                  x_axis_pos := some x
                  y_axis_pos := some y
                  share_token := some tok
                  created_at := env.now }
              match insert_job db row with
              | .error e => (.error ("Failed to analyze music taste: " ++ e), db)
              | .ok db2 =>
                (.ok { rating_text := rt
                       rating_description := rd
                       x_axis_pos := x
                       y_axis_pos := y
                       share_token := tok
                       analyzed_at := env.now }, db2)

/-- Model of `MusicAnalysisService.get_analysis_by_share_token`
(analysis_service.py lines 335-358; `ResultPersister` lines 91-114 is the
same function).  Errors are `(status code, message)` pairs: the inner
`SpotifyAPIError("Analysis not found")` (status 503) is caught by the
same blanket `except` of that function and re-wrapped, and a row with a NULL
result field makes the non-optional `PublicAnalysisResponse` model raise a
validation error, re-wrapped the same way.  The completion status of the
row is never consulted. -/
def get_analysis_by_share_token (db : JobTable) (tok : String) :
    Except (Nat × String) PublicAnalysisResponse :=
  match findByShareToken db tok with
  | none =>
    .error (503, "Failed to get analysis by share token: 503: Analysis not found")
  | some a =>
    match a.rating_text, a.rating_description, a.x_axis_pos, a.y_axis_pos with
    | some rt, some rd, some x, some y =>
      .ok { rating_text := rt
            rating_description := rd
            x_axis_pos := x
            y_axis_pos := y
            analyzed_at := a.created_at }
    | _, _, _, _ =>
      .error (503, "Failed to get analysis by share token: validation error")

/-- Modelled from the spec: `MusicAnalysisService.begin_analysis` is invoked
by the begin endpoint (analyze_router.py line 27) and exercised by the
end-to-end tests, but its definition is absent from the source tree.
Spec section 4.1: if a Job already exists for the owner, return it unchanged
(idempotent; repeated calls never create duplicate jobs nor restart a
running one); else create a Job with status PENDING, persist it, hand off to
deferred execution, and return `(job_id, status)`. -/
def begin_analysis (db : JobTable) (uid fresh_id : Nat) (now : Int) :
    (Nat × AnalysisStatus) × JobTable :=
  match findByUser db uid with
  | some j => ((j.id, j.status), db)
  | none =>
    let j : Job := { id := fresh_id, user_id := uid, created_at := now }
    ((fresh_id, .pending), db ++ [j])

end AnalysisService

/-! ## Token refresh service (music/token_refresh_service.py, music/spotify.py) -/

/-- A stored user credential row (the fields
`TokenRefreshService.get_valid_access_token` reads).  Expiry instants are
epoch seconds. -/
structure User where
  access_token : Option String := none
  refresh_token : Option String := none
  token_expires_at : Option Int := none
deriving DecidableEq, Repr

/-- The provider refresh response body; the `refresh_token` key may be
omitted. -/
structure RefreshResponse where
  access_token : String
  refresh_token : Option String := none
  expires_in : Int
deriving DecidableEq, Repr

/-- The `SpotifyTokenInfo` value `refresh_access_token` returns. -/
structure SpotifyTokenInfo where
  access_token : String
  refresh_token : String
  expires_in : Int
deriving DecidableEq, Repr

/-- Python truthiness of an optional string (`if not user.access_token`). -/
def strTruthy : Option String → Bool
  | none => false
  | some s => !s.isEmpty

/-- Model of `SpotifyMusicClient.refresh_access_token` (spotify.py lines
115-143): on success, a missing `refresh_token` key in the response is
replaced by the old one before building `SpotifyTokenInfo`; any failure is
wrapped. -/
def refresh_access_token (old_refresh : String)
    (resp : Except String RefreshResponse) : Except String SpotifyTokenInfo :=
  match resp with
  | .error e => .error ("Failed to refresh token: " ++ e)
  | .ok r =>
    .ok { access_token := r.access_token
          refresh_token := r.refresh_token.getD old_refresh
          expires_in := r.expires_in }

/-- Model of `TokenRefreshService.get_valid_access_token`
(token_refresh_service.py lines 21-69).  `provider` maps the refresh
credential sent to the outcome of the HTTP exchange.  Returns the access
token and the user row as persisted after the call.  The two
`datetime.now(UTC)` readings (expiry check and new-expiry computation) are
modelled by the single instant `now`; 5 minutes is 300 seconds. -/
def get_valid_access_token (now : Int)
    (provider : String → Except String RefreshResponse)
    (user? : Option User) : Except String (String × User) :=
  match user? with
  | none => .error ("User not found")
  | some user =>
    if !strTruthy user.access_token then
      .error ("User has no Spotify access token")
    else
      match user.token_expires_at with
      | some expires_at =>
        if expires_at ≤ now + 300 then
          if !strTruthy user.refresh_token then
            .error ("Spotify refresh token not available")
          else
            let old := user.refresh_token.getD ("")
            match refresh_access_token old (provider old) with
            | .error e => .error ("Failed to refresh Spotify token: " ++ e)
            | .ok ti =>
              .ok (ti.access_token,
                { user with
                  access_token := some ti.access_token
                  refresh_token := some ti.refresh_token
                  token_expires_at := some (now + ti.expires_in) })
        else
          .ok (user.access_token.getD (""), user)
      | none => .ok (user.access_token.getD (""), user)

/-! ## Taste summary (music/ai_client.py `_prepare_music_summary`)

Only the fields feeding numeric statistics are modelled; the per-window
top-5 listings feed the prompt text alone. -/

/-- Python `min` over a non-empty list, `100` on the empty one (the
`popularity_stats` initialisation of `_prepare_music_summary` line 89). -/
def pop_min (pops : List ℚ) : ℚ :=
  match pops with
  | [] => 100
  | p :: ps => ps.foldl min p

/-- Python `max` over a non-empty list, `0` on the empty one. -/
def pop_max (pops : List ℚ) : ℚ :=
  match pops with
  | [] => 0
  | p :: ps => ps.foldl max p

/-- The numeric core of the summary dict. -/
structure MusicSummary where
  total_unique_tracks : Nat
  total_unique_artists : Nat
  genres : List String
  popularity_avg : ℚ
  popularity_min : ℚ
  popularity_max : ℚ
  genre_diversity : Nat
  mainstream_score : ℚ
  recently_played_count : Nat
  artist_loyalty_score : ℚ
deriving DecidableEq, Repr

/-- Model of `MusicAnalysisAI._prepare_music_summary` (ai_client.py lines
83-184), restricted to its numeric fields.  `track_ids`/`artist_ids` are the
sets of `track.get("id", "")` over the per-window top tracks and
`artist.get("id", "")` over the per-window top artists. -/
def prepare_music_summary (md : MusicData) : MusicSummary :=
  let pops := all_popularities md
  { total_unique_tracks :=
      (dedupIds (time_ranges.flatMap
        (fun tr => (md.top_tracks tr).items.map Track.id))).length
    total_unique_artists :=
      (dedupIds (time_ranges.flatMap
        (fun tr => (md.top_artists tr).items.map Artist.id))).length
    genres := genres_of md
    popularity_avg := avg_popularity pops
    popularity_min := if pops.isEmpty then 100 else pop_min pops
    popularity_max := if pops.isEmpty then 0 else pop_max pops
    genre_diversity := (genres_of md).length
    mainstream_score := mainstream_score pops
    recently_played_count := md.recently_played.items.length
    artist_loyalty_score := artist_loyalty_score (artist_appearances md) }

/-! ## Concrete demonstration inputs used by witnesses and evaluations -/

/-- A Spotify client whose every endpoint succeeds with an empty payload. -/
def demoClientEmpty : SpotifyClient :=
  { get_user_top_tracks := fun _ => .ok {}
    get_user_top_artists := fun _ => .ok {}
    get_recently_played := .ok {}
    get_audio_features := fun _ => .ok {} }

/-- A Spotify client with one short-term top track of popularity 80 and
otherwise empty successful payloads. -/
def demoClientPop : SpotifyClient :=
  { get_user_top_tracks := fun tr =>
      match tr with
      | .short_term => .ok { items := [{ id := "t1", popularity := some 80, name := "Song" }] }
      | _ => .ok {}
    get_user_top_artists := fun _ => .ok {}
    get_recently_played := .ok {}
    get_audio_features := fun _ => .ok {} }

/-- A random source whose attempt `i` spells out consecutive alphabet
positions: the first generated token is `"abcdefghijklmno"`. -/
def demoChoicesSeq : Nat → Nat → Nat := fun _ k => k

/-- A random source stuck on position 0: every generated token is
`"aaaaaaaaaaaaaaa"`. -/
def demoChoicesZero : Nat → Nat → Nat := fun _ _ => 0

/-- A schema-conforming successful text-generation reply: exactly the four
required fields of the AI client contract, nothing else. -/
def demoReplySchema : AnalysisDict :=
  { rating_text := some ("NOSTALGIC MILLENNIAL")
    rating_description := some ("Roast.")
    critical_acclaim_score := some 0.2
    music_snob_score := some 0.3 }

/-- A reply whose score fields are out of range (2.0 and -2.0). -/
def demoReplyOutOfRange : AnalysisDict :=
  { rating_text := some ("TEST RATING")
    rating_description := some ("Desc.")
    critical_acclaim_score := some 2
    music_snob_score := some (-2) }

/-- A fresh pending row as the begin operation creates it. -/
def demoJobPending : Job := { id := 1, user_id := 7 }

/-- A background run in which every stage succeeds and the inference call
returns the schema-conforming reply. -/
def demoTaskEnvAI : TaskEnv :=
  { token_result := .ok ("acc")
    client := demoClientPop
    ai_reply := .ok demoReplySchema
    choices := demoChoicesSeq }

/-- A background run whose token acquisition fails outright. -/
def demoTaskEnvTokenFail : TaskEnv :=
  { token_result := .error ("boom")
    client := demoClientEmpty
    ai_reply := .error ("down")
    choices := demoChoicesSeq }

/-- A legacy synchronous run against an owner with no listening data: the
collection succeeds with empty payloads, so the no-data default verdict is
used and the inference outcome is never consulted. -/
def demoLegacyEnv : AnalysisService.LegacyEnv :=
  { token_result := .ok ("acc")
    client := demoClientEmpty
    ai_reply := .error ("down")
    choices := demoChoicesSeq }

/-- A PENDING row carrying a share token and NULL result fields (the
fixture of `test_get_shared_analysis_incomplete`). -/
def demoRowPendingNull : Job :=
  { id := 1, user_id := 1, share_token := some ("pending_token_123") }

/-- A PENDING row carrying a share token and fully populated result fields,
as the legacy synchronous path persists them. -/
def demoRowPendingFull : Job :=
  { id := 2
    user_id := 2
    rating_text := some ("TEST RATING")
    rating_description := some ("Desc.")
    x_axis_pos := some 0.5
    y_axis_pos := some 0.5
    share_token := some ("tok2") }

/-- A Spotify client whose every endpoint raises. -/
def demoClientFail : SpotifyClient :=
  { get_user_top_tracks := fun _ => .error ("down")
    get_user_top_artists := fun _ => .error ("down")
    get_recently_played := .error ("down")
    get_audio_features := fun _ => .error ("down") }

/-- The clamped validation result of `demoReplyOutOfRange`. -/
def demoReplyClamped : AnalysisDict :=
  { demoReplyOutOfRange with
    critical_acclaim_score := some 1
    music_snob_score := some (-1) }

/-- A row holding the token the stuck random source keeps generating. -/
def demoRowTokenA : Job :=
  { id := 3, user_id := 3, share_token := some ("aaaaaaaaaaaaaaa") }

/-- A stored credential row with an expiry in the refresh window. -/
def demoUser : User :=
  { access_token := some ("A")
    refresh_token := some ("R")
    token_expires_at := some 100 }

/-- A token provider whose refresh response omits the refresh credential. -/
def demoProvider : String → Except String RefreshResponse :=
  fun _ => .ok { access_token := "NEW", expires_in := 3600 }

/-- The row the legacy synchronous path persists for the demonstration run
`demoLegacyEnv` on an empty table: the no-data verdict, fully populated,
with `status` left at its PENDING default. -/
def demoLegacyRow : Job :=
  { id := 1
    user_id := 7
    rating_text := some ("MYSTERIOUS LISTENER")
    rating_description :=
      some ("Your music taste is so unique that even Spotify does not know what to make of it.")
    x_axis_pos := some 0
    y_axis_pos := some 0
    share_token := some ("abcdefghijklmno") }

/-! ## Invariant vocabulary -/

/-- The result dict carries the four keys the persistence code subscripts
(`rating_text`, `rating_description`, `x_axis_pos`, `y_axis_pos`). -/
def has_persisted_keys (d : AnalysisDict) : Prop :=
  d.rating_text.isSome ∧ d.rating_description.isSome ∧
    d.x_axis_pos.isSome ∧ d.y_axis_pos.isSome

/-- Every result field of the row is NULL. -/
def result_fields_all_none (j : Job) : Prop :=
  j.rating_text = none ∧ j.rating_description = none ∧
    j.x_axis_pos = none ∧ j.y_axis_pos = none ∧ j.share_token = none

/-- Every result field of the row is populated. -/
def result_fields_all_some (j : Job) : Prop :=
  j.rating_text.isSome ∧ j.rating_description.isSome ∧
    j.x_axis_pos.isSome ∧ j.y_axis_pos.isSome ∧ j.share_token.isSome

/-- The all-or-nothing completeness invariant of the spec data model. -/
def all_or_nothing (j : Job) : Prop :=
  (j.status = .completed → result_fields_all_some j) ∧
    (j.status ≠ .completed → result_fields_all_none j)

instance (j : Job) : Decidable (result_fields_all_none j) := by
  unfold result_fields_all_none; infer_instance

instance (j : Job) : Decidable (result_fields_all_some j) := by
  unfold result_fields_all_some; infer_instance

instance (j : Job) : Decidable (all_or_nothing j) := by
  unfold all_or_nothing; infer_instance

instance (d : AnalysisDict) : Decidable (has_persisted_keys d) := by
  unfold has_persisted_keys; infer_instance

/-! # Theorems -/

/-! ## Helper lemmas -/

/-- Clamped values lie in the closed interval. -/
theorem clamp_score_mem (v : ℚ) : -1 ≤ clamp_score v ∧ clamp_score v ≤ 1 := by
  unfold clamp_score
  exact ⟨le_max_left _ _, max_le (by norm_num) (min_le_left _ _)⟩

/-- Characterisation of a successful validation: all four schema fields were
present and the result is the reply with clamped scores. -/
theorem validate_ok_iff (reply r : AnalysisDict) :
    analyze_music_taste_validate reply = .ok r ↔
      (reply.rating_text.isSome ∧ reply.rating_description.isSome ∧
        reply.critical_acclaim_score.isSome ∧ reply.music_snob_score.isSome ∧
        r = { reply with
          critical_acclaim_score := reply.critical_acclaim_score.map clamp_score
          music_snob_score := reply.music_snob_score.map clamp_score }) := by
  cases h1 : reply.rating_text <;> cases h2 : reply.rating_description <;>
    cases h3 : reply.critical_acclaim_score <;> cases h4 : reply.music_snob_score <;>
    simp [analyze_music_taste_validate, h1, h2, h3, h4, eq_comm]

/-! ## C6 -/

/-- C6: a successful AI inference result has both score fields clamped into
the closed interval from -1.0 to 1.0; an input of 2.0 is clamped to 1.0 and
an input of -2.0 to -1.0. -/
theorem ai_scores_clamped (reply r : AnalysisDict)
    (h : analyze_music_taste (.ok reply) = .ok r) :
    (∀ x, r.critical_acclaim_score = some x → -1 ≤ x ∧ x ≤ 1) ∧
    (∀ y, r.music_snob_score = some y → -1 ≤ y ∧ y ≤ 1) ∧
    clamp_score 2 = 1 ∧ clamp_score (-2) = -1 := by
  have hv : analyze_music_taste_validate reply = .ok r := by
    unfold analyze_music_taste at h
    cases hval : analyze_music_taste_validate reply with
    | error e => simp [hval] at h
    | ok a => simp only [hval] at h; exact h
  obtain ⟨-, -, -, -, rfl⟩ := (validate_ok_iff reply r).mp hv
  refine ⟨?_, ?_, by norm_num [clamp_score], by norm_num [clamp_score]⟩
  · intro x hx
    simp only [Option.map_eq_some'] at hx
    obtain ⟨v, -, rfl⟩ := hx
    exact clamp_score_mem v
  · intro y hy
    simp only [Option.map_eq_some'] at hy
    obtain ⟨v, -, rfl⟩ := hy
    exact clamp_score_mem v

/-- Witness for C6: the out-of-range reply with scores 2.0 and -2.0
validates to the clamped values 1.0 and -1.0, which lie in the interval. -/
theorem ai_scores_clamped_witness :
    (-1 ≤ (1 : ℚ) ∧ (1 : ℚ) ≤ 1) ∧ clamp_score 2 = 1 ∧ clamp_score (-2) = -1 :=
  have h := ai_scores_clamped demoReplyOutOfRange demoReplyClamped (by rfl)
  ⟨h.1 1 (by decide), h.2.2⟩

/-! ## C7 -/

/-- Shape of every generated candidate: 15 characters, each from the
62-symbol alphabet. -/
theorem generate_share_token_shape (choice : Nat → Nat) :
    (generate_share_token choice).length = 15 ∧
      ∀ c ∈ (generate_share_token choice).toList, c ∈ alphabet := by
  constructor
  · simp [generate_share_token, String.length]
  · intro c hc
    simp only [generate_share_token, String.toList, List.mem_map] at hc
    obtain ⟨i, -, rfl⟩ := hc
    have hlt : choice i % alphabet.length < alphabet.length :=
      Nat.mod_lt _ (by decide)
    rw [List.getD_eq_getElem alphabet 'a' hlt]
    exact List.getElem_mem hlt

/-- A successful draw of the retry loop is fresh in the table and comes from
one of the first `fuel` attempts. -/
theorem genUniqueAux_ok (choices : Nat → Nat → Nat) (db : JobTable) :
    ∀ (fuel i : Nat) (t : String), genUniqueAux choices db fuel i = .ok t →
      findByShareToken db t = none ∧
        ∃ j, i ≤ j ∧ j < i + fuel ∧ t = generate_share_token (choices j) := by
  intro fuel
  induction fuel with
  | zero => intro i t h; simp [genUniqueAux] at h
  | succ n ih =>
    intro i t h
    unfold genUniqueAux at h
    by_cases hc : (findByShareToken db (generate_share_token (choices i))).isSome
    · simp only [hc, if_pos] at h
      obtain ⟨hfree, j, hj1, hj2, ht⟩ := ih (i + 1) t h
      exact ⟨hfree, j, by omega, by omega, ht⟩
    · simp only [hc, if_neg, Bool.false_eq_true, not_false_eq_true] at h
      simp only [Except.ok.injEq] at h
      subst h
      refine ⟨?_, i, le_refl _, by omega, rfl⟩
      cases hfind : findByShareToken db (generate_share_token (choices i)) with
      | none => rfl
      | some j => rw [hfind] at hc; simp at hc

/-- When every attempt collides, the retry loop exhausts its fuel and fails
fatally. -/
theorem genUniqueAux_exhaust (choices : Nat → Nat → Nat) (db : JobTable) :
    ∀ (fuel i : Nat),
      (∀ j, i ≤ j → j < i + fuel →
        (findByShareToken db (generate_share_token (choices j))).isSome = true) →
      genUniqueAux choices db fuel i =
        .error ("Failed to generate unique share token after maximum attempts") := by
  intro fuel
  induction fuel with
  | zero => intro i _; rfl
  | succ n ih =>
    intro i hcol
    unfold genUniqueAux
    have hi : (findByShareToken db (generate_share_token (choices i))).isSome = true :=
      hcol i (le_refl _) (by omega)
    simp only [hi, if_pos]
    exact ih (i + 1) (fun j hj1 hj2 => hcol j (by omega) (by omega))

/-- C7: every issued share token is exactly 15 characters over the 62-symbol
alphabet of letters and digits; the issuer checks the candidate against the
job table, drawing at most 10 candidates, and fails fatally when all 10
collide. -/
theorem share_token_issuer_ok (choices : Nat → Nat → Nat) (db : JobTable) :
    (∀ choice : Nat → Nat, (generate_share_token choice).length = 15 ∧
        ∀ c ∈ (generate_share_token choice).toList, c ∈ alphabet) ∧
    (∀ t, generate_unique_share_token choices db = .ok t →
        t.length = 15 ∧ (∀ c ∈ t.toList, c ∈ alphabet) ∧
          findByShareToken db t = none ∧
          ∃ j, j < 10 ∧ t = generate_share_token (choices j)) ∧
    ((∀ j, j < 10 →
        (findByShareToken db (generate_share_token (choices j))).isSome = true) →
      generate_unique_share_token choices db =
        .error ("Failed to generate unique share token after maximum attempts")) := by
  refine ⟨generate_share_token_shape, ?_, ?_⟩
  · intro t h
    obtain ⟨hfree, j, -, hj, ht⟩ := genUniqueAux_ok choices db 10 0 t h
    subst ht
    obtain ⟨hlen, hmem⟩ := generate_share_token_shape (choices j)
    exact ⟨hlen, hmem, hfree, j, by omega, rfl⟩
  · intro hcol
    exact genUniqueAux_exhaust choices db 10 0 (fun j _ hj => hcol j (by omega))

/-- Witness for C7: on an empty table the sequential source issues the fresh
15-character token abcdefghijklmno, and against a table holding the stuck
sole candidate of the stuck source the issuer exhausts its 10 attempts and fails. -/
theorem share_token_issuer_ok_witness :
    ("abcdefghijklmno".length = 15 ∧
      findByShareToken [] "abcdefghijklmno" = none) ∧
    generate_unique_share_token demoChoicesZero [demoRowTokenA] =
      .error ("Failed to generate unique share token after maximum attempts") :=
  ⟨⟨((share_token_issuer_ok demoChoicesSeq []).2.1 ("abcdefghijklmno") (by rfl)).1,
    ((share_token_issuer_ok demoChoicesSeq []).2.1 ("abcdefghijklmno") (by rfl)).2.2.1⟩,
   (share_token_issuer_ok demoChoicesZero [demoRowTokenA]).2.2 (by decide)⟩

/-! ## C9 -/

/-- C9: every division in the taste summary and the fallback verdicts
(popularity average, mainstream score, artist loyalty score, audio-feature
averages) is reached only with a non-zero denominator, and each statistic
defaults to 0 when its input set is empty. -/
theorem division_guards (pops : List ℚ) (apps : List (String × Nat))
    (feats : List (Option AudioFeatures)) (get : AudioFeatures → ℚ) :
    (pops.isEmpty = true → avg_popularity pops = 0 ∧ mainstream_score pops = 0) ∧
    (pops.isEmpty = false → ((pops.length : ℚ) ≠ 0 ∧
        avg_popularity pops = pops.sum / pops.length)) ∧
    (apps.isEmpty = true → artist_loyalty_score apps = 0) ∧
    (apps.isEmpty = false → ((apps.length : ℚ) ≠ 0 ∧
        artist_loyalty_score apps =
          (apps.countP (fun p => decide (p.2 > 1)) : ℚ) / apps.length)) ∧
    ((feats.filterMap id).isEmpty = true → avg_feature get feats = 0) ∧
    ((feats.filterMap id).isEmpty = false →
        (((feats.filterMap id).length : ℚ) ≠ 0 ∧
          avg_feature get feats =
            ((feats.filterMap id).map get).sum / (feats.filterMap id).length)) := by
  have len_ne : ∀ {α : Type} (l : List α), l.isEmpty = false → ((l.length : ℚ) ≠ 0) := by
    intro α l hl
    have : l ≠ [] := by
      intro h; subst h; simp at hl
    have hpos : 0 < l.length := List.length_pos.mpr this
    exact_mod_cast Nat.pos_iff_ne_zero.mp hpos
  refine ⟨?_, ?_, ?_, ?_, ?_, ?_⟩
  · intro h; exact ⟨by simp [avg_popularity, h], by simp [mainstream_score, h]⟩
  · intro h; exact ⟨len_ne pops h, by simp [avg_popularity, h]⟩
  · intro h; simp [artist_loyalty_score, h]
  · intro h; exact ⟨len_ne apps h, by simp [artist_loyalty_score, h]⟩
  · intro h
    unfold avg_feature
    by_cases hf : feats.isEmpty
    · simp [hf]
    · simp only [hf, if_neg, Bool.false_eq_true, not_false_eq_true]
      simp [h]
  · intro h
    have hf : feats.isEmpty = false := by
      cases hfe : feats.isEmpty
      · rfl
      · exfalso
        have : feats = [] := by
          cases feats with
          | nil => rfl
          | cons x xs => simp at hfe
        subst this; simp at h
    exact ⟨len_ne _ h, by simp [avg_feature, hf, h]⟩

/-- Witness for C9: the empty statistics all evaluate to 0, and a singleton
popularity list has a non-zero denominator. -/
theorem division_guards_witness :
    (avg_popularity [] = 0 ∧ mainstream_score [] = 0) ∧
    artist_loyalty_score [] = 0 ∧
    avg_feature (fun f => f.energy.getD 0) [] = 0 ∧
    (((3 : ℚ) :: []).length : ℚ) ≠ 0 :=
  ⟨(division_guards [] [] [] (fun f => f.energy.getD 0)).1 rfl,
   (division_guards [] [] [] (fun f => f.energy.getD 0)).2.2.1 rfl,
   (division_guards [] [] [] (fun f => f.energy.getD 0)).2.2.2.2.1 rfl,
   ((division_guards [(3 : ℚ)] [] [] (fun f => f.energy.getD 0)).2.1 rfl).1⟩

/-! ## C8 -/

/-- C8: with no recorded expiry the stored access token is returned and the
credential row left unchanged; with an expiry within 300 seconds of now (or
past), the service refreshes via the provider — failing when no refresh
credential is stored and propagating provider failures — and a provider
response that omits a new refresh credential leaves the prior refresh
credential in place. -/
theorem token_lifecycle (now : Int)
    (provider : String → Except String RefreshResponse) (user : User) :
    (strTruthy user.access_token = true → user.token_expires_at = none →
        get_valid_access_token now provider (some user) =
          .ok (user.access_token.getD (""), user)) ∧
    (∀ exp, strTruthy user.access_token = true →
        user.token_expires_at = some exp → exp ≤ now + 300 →
        strTruthy user.refresh_token = false →
        get_valid_access_token now provider (some user) =
          .error ("Spotify refresh token not available")) ∧
    (∀ exp rt resp, strTruthy user.access_token = true →
        user.token_expires_at = some exp → exp ≤ now + 300 →
        user.refresh_token = some rt → rt ≠ "" →
        provider rt = .ok resp → resp.refresh_token = none →
        get_valid_access_token now provider (some user) =
          .ok (resp.access_token,
            { user with
              access_token := some resp.access_token
              refresh_token := some rt
              token_expires_at := some (now + resp.expires_in) })) ∧
    (∀ exp rt e, strTruthy user.access_token = true →
        user.token_expires_at = some exp → exp ≤ now + 300 →
        user.refresh_token = some rt → rt ≠ "" →
        provider rt = .error e →
        get_valid_access_token now provider (some user) =
          .error ("Failed to refresh Spotify token: " ++
            ("Failed to refresh token: " ++ e))) := by
  refine ⟨?_, ?_, ?_, ?_⟩
  · intro hacc hexp
    simp [get_valid_access_token, hexp, hacc]
  · intro exp hacc hexp hle hrt
    simp [get_valid_access_token, hexp, hacc, hrt, hle]
  · intro exp rt resp hacc hexp hle hrt hrt' hp hnone
    have hie : rt.isEmpty = false := by
      cases hie : rt.isEmpty
      · rfl
      · exact absurd ((String.isEmpty_iff rt).mp hie) hrt'
    have hsome : strTruthy (some rt) = true := by simp [strTruthy, hie]
    simp [get_valid_access_token, refresh_access_token, hexp, hacc, hsome, hrt,
      hle, hp, hnone]
  · intro exp rt e hacc hexp hle hrt hrt' hp
    have hie : rt.isEmpty = false := by
      cases hie : rt.isEmpty
      · rfl
      · exact absurd ((String.isEmpty_iff rt).mp hie) hrt'
    have hsome : strTruthy (some rt) = true := by simp [strTruthy, hie]
    simp [get_valid_access_token, refresh_access_token, hexp, hacc, hsome, hrt,
      hle, hp]

/-- Witness for C8: the demonstration user with expiry 100 and now 0 is
refreshed through a provider that omits the refresh credential; the prior
credential R is kept and the new expiry is 3600. -/
theorem token_lifecycle_witness :
    get_valid_access_token 0 demoProvider (some demoUser) =
      .ok ("NEW",
        { access_token := some ("NEW")
          refresh_token := some ("R")
          token_expires_at := some 3600 }) :=
  (token_lifecycle 0 demoProvider demoUser).2.2.1 100 ("R")
    { access_token := "NEW", expires_in := 3600 }
    (by decide) rfl (by decide) rfl (by decide) rfl rfl

/-! ## C5 -/

/-- The batch accumulation loop appends exactly the feature lists of successful
batches, in order, skipping failed batches. -/
theorem audio_fold_eq (c : SpotifyClient) :
    ∀ (l : List (List String)) (acc : List (Option AudioFeatures)),
      l.foldl (fun acc batch =>
          match c.get_audio_features batch with
          | .ok fp => acc ++ fp.audio_features
          | .error _ => acc) acc
        = acc ++ l.flatMap (fun batch =>
            match c.get_audio_features batch with
            | .ok fp => fp.audio_features
            | .error _ => []) := by
  intro l
  induction l with
  | nil => intro acc; simp
  | cons x xs ih =>
    intro acc
    cases h : c.get_audio_features x <;>
      simp [List.foldl_cons, List.flatMap_cons, h, ih, List.append_assoc]

/-- The audio-features slot equals the per-batch concatenation in which a
failed batch contributes the empty placeholder. -/
theorem audio_features_slot_eq (c : SpotifyClient) (md : MusicData) :
    audio_features_slot c md = (chunks100 (collected_track_ids md)).flatMap
      (fun batch =>
        match c.get_audio_features batch with
        | .ok fp => fp.audio_features
        | .error _ => []) := by
  unfold audio_features_slot
  by_cases h : (collected_track_ids md).isEmpty
  · have hnil : collected_track_ids md = [] := by
      cases hc : collected_track_ids md with
      | nil => rfl
      | cons x xs => rw [hc] at h; simp at h
    simp [hnil, chunks100]
  · simp only [h, Bool.false_eq_true, if_neg, not_false_eq_true]
    exact audio_fold_eq c (chunks100 (collected_track_ids md)) []

/-- C5: each sub-fetch of the collector degrades independently to an
empty-result placeholder on failure, and the overall collection fails
exactly when the initial token acquisition fails — never merely because an
upstream sub-fetch failed. -/
theorem collector_degrades (token_result : Except String String)
    (c : SpotifyClient) :
    ((fetch_user_music_data token_result c).isOk = token_result.isOk) ∧
    (∀ e, token_result = .error e →
        fetch_user_music_data token_result c =
          .error ("Failed to fetch music data: " ++ e)) ∧
    (∀ tok md, token_result = .ok tok →
        fetch_user_music_data token_result c = .ok md →
        (∀ tr e, c.get_user_top_tracks tr = .error e → md.top_tracks tr = {}) ∧
        (∀ tr e, c.get_user_top_artists tr = .error e → md.top_artists tr = {}) ∧
        (∀ e, c.get_recently_played = .error e → md.recently_played = {}) ∧
        md.audio_features = (chunks100 (collected_track_ids md)).flatMap
          (fun batch =>
            match c.get_audio_features batch with
            | .ok fp => fp.audio_features
            | .error _ => [])) := by
  refine ⟨?_, ?_, ?_⟩
  · cases token_result <;> rfl
  · intro e he; subst he; rfl
  · intro tok md htok hmd
    subst htok
    unfold fetch_user_music_data at hmd
    simp only [Except.ok.injEq] at hmd
    subst hmd
    refine ⟨?_, ?_, ?_, ?_⟩
    · intro tr e he
      cases tr <;> simp [MusicData.top_tracks, top_tracks_slot, he]
    · intro tr e he
      cases tr <;> simp [MusicData.top_artists, top_artists_slot, he]
    · intro e he
      simp [recently_played_slot, he]
    · exact audio_features_slot_eq c
        { top_tracks_short_term := top_tracks_slot c .short_term
          top_tracks_medium_term := top_tracks_slot c .medium_term
          top_tracks_long_term := top_tracks_slot c .long_term
          top_artists_short_term := top_artists_slot c .short_term
          top_artists_medium_term := top_artists_slot c .medium_term
          top_artists_long_term := top_artists_slot c .long_term
          recently_played := recently_played_slot c
          audio_features := [] }

/-- Witness for C5: a failed recently-played fetch leaves the empty
placeholder, and a token failure aborts the collection with the wrapped
error. -/
theorem collector_degrades_witness :
    (({} : MusicData).recently_played = {} ∧
      fetch_user_music_data (.ok ("acc")) demoClientFail = .ok {}) ∧
    fetch_user_music_data (.error ("boom")) demoClientEmpty =
      .error ("Failed to fetch music data: " ++ "boom") :=
  ⟨⟨((collector_degrades (.ok ("acc")) demoClientFail).2.2 ("acc") {} rfl
      (by rfl)).2.2.1 ("down") rfl, by rfl⟩,
    (collector_degrades (.error ("boom")) demoClientEmpty).2.1 ("boom") rfl⟩

/-! ## C2 -/

/-- C2: against the spec-modelled begin operation, a begin call on an owner
with an existing Job returns the id and status of that job with the table
untouched; a first begin on a fresh owner creates exactly one PENDING row;
and a repeated begin — with arbitrary later fresh id and clock — returns the
same job id and leaves the table exactly as the first call left it. -/
theorem begin_idempotent (db : JobTable) (uid id1 id2 : Nat) (t1 t2 : Int) :
    (∀ j, findByUser db uid = some j →
        AnalysisService.begin_analysis db uid id1 t1 = ((j.id, j.status), db)) ∧
    (findByUser db uid = none →
        AnalysisService.begin_analysis db uid id1 t1 =
          ((id1, .pending), db ++ [{ id := id1, user_id := uid, created_at := t1 }]) ∧
        (db.countP (fun j => j.user_id == uid) = 0 →
          ((AnalysisService.begin_analysis db uid id1 t1).2.countP
            (fun j => j.user_id == uid)) = 1)) ∧
    ((AnalysisService.begin_analysis
        (AnalysisService.begin_analysis db uid id1 t1).2 uid id2 t2).1.1 =
          (AnalysisService.begin_analysis db uid id1 t1).1.1 ∧
      (AnalysisService.begin_analysis
        (AnalysisService.begin_analysis db uid id1 t1).2 uid id2 t2).2 =
          (AnalysisService.begin_analysis db uid id1 t1).2) := by
  refine ⟨?_, ?_, ?_⟩
  · intro j hj
    simp [AnalysisService.begin_analysis, hj]
  · intro hnone
    constructor
    · simp [AnalysisService.begin_analysis, hnone]
    · intro hcount
      simp [AnalysisService.begin_analysis, hnone, List.countP_append, hcount,
        List.countP_cons]
  · cases hfind : findByUser db uid with
    | some j =>
      constructor <;>
        simp [AnalysisService.begin_analysis, hfind]
    | none =>
      have hfind2 : findByUser
          (db ++ [{ id := id1, user_id := uid, created_at := t1 }]) uid =
            some { id := id1, user_id := uid, created_at := t1 } := by
        unfold findByUser at hfind ⊢
        rw [List.find?_append, hfind]
        simp
      constructor <;>
        simp [AnalysisService.begin_analysis, hfind, hfind2]

/-- Witness for C2: a second begin against the table left by a first begin
on a fresh owner returns job id 1 and the unchanged table. -/
theorem begin_idempotent_witness :
    AnalysisService.begin_analysis [demoJobPending] 7 5 9 =
      ((1, AnalysisStatus.pending), [demoJobPending]) :=
  (begin_idempotent [demoJobPending] 7 5 2 9 9).1 demoJobPending rfl

/-! ## C10 -/

/-- C10: for an owner who already has a persisted analysis row, the legacy
synchronous analyze operation always fails with an error wrapped as
Failed-to-analyze-music-taste — whatever the external outcomes — because
its unconditional insert is rejected by the unique owner constraint, and
the table is left exactly as it was: the existing row is never returned nor
overwritten. -/
theorem legacy_reanalysis_always_fails (env : AnalysisService.LegacyEnv)
    (db : JobTable) (uid fresh_id : Nat)
    (hexists : db.any (fun j => j.user_id == uid) = true) :
    (∃ msg, (AnalysisService.analyze_user_music_taste env db uid fresh_id).1 =
        .error ("Failed to analyze music taste: " ++ msg)) ∧
    (AnalysisService.analyze_user_music_taste env db uid fresh_id).2 = db := by
  unfold AnalysisService.analyze_user_music_taste
  cases hf : fetch_user_music_data env.token_result env.client with
  | error e => exact ⟨⟨e, rfl⟩, rfl⟩
  | ok md =>
    simp only []
    cases hg : generate_unique_share_token env.choices db with
    | error e => exact ⟨⟨e, rfl⟩, rfl⟩
    | ok tok =>
      simp only []
      cases (analyze_music_with_ai AnalysisService.fallback_analysis
          (analyze_music_taste env.ai_reply) md).rating_text with
      | none => exact ⟨⟨"KeyError: rating_text", rfl⟩, rfl⟩
      | some rt =>
        simp only []
        cases (analyze_music_with_ai AnalysisService.fallback_analysis
            (analyze_music_taste env.ai_reply) md).rating_description with
        | none => exact ⟨⟨"KeyError: rating_description", rfl⟩, rfl⟩
        | some rd =>
          simp only []
          cases (analyze_music_with_ai AnalysisService.fallback_analysis
              (analyze_music_taste env.ai_reply) md).x_axis_pos with
          | none => exact ⟨⟨"KeyError: x_axis_pos", rfl⟩, rfl⟩
          | some x =>
            simp only []
            cases (analyze_music_with_ai AnalysisService.fallback_analysis
                (analyze_music_taste env.ai_reply) md).y_axis_pos with
            | none => exact ⟨⟨"KeyError: y_axis_pos", rfl⟩, rfl⟩
            | some y =>
              simp only []
              have hins : insert_job db
                  { id := fresh_id
                    user_id := uid
                    rating_text := some rt
                    rating_description := some rd
                    x_axis_pos := some x
                    y_axis_pos := some y
                    share_token := some tok
                    created_at := env.now } =
                  .error ("UNIQUE constraint failed: musicanalysisresult.user_id") := by
                unfold insert_job
                rw [if_pos hexists]
              rw [hins]
              exact ⟨⟨"UNIQUE constraint failed: musicanalysisresult.user_id", rfl⟩, rfl⟩

/-- Witness for C10: re-running the legacy analyze against the table holding
the pending demonstration row for owner 7 leaves the table unchanged. -/
theorem legacy_reanalysis_always_fails_witness :
    (AnalysisService.analyze_user_music_taste demoLegacyEnv
        [demoJobPending] 7 2).2 = [demoJobPending] :=
  (legacy_reanalysis_always_fails demoLegacyEnv [demoJobPending] 7 2 (by decide)).2

/-! ## C4 -/

/-- C4, evaluation at the test fixtures of the repository: the public lookup wraps
the no-match case and the null-field case as two 503 errors with different
messages (not one NotFound shape), and a matching row that is NOT COMPLETED
but fully populated is served successfully — the completion status is never
consulted, contradicting the claimed not-COMPLETED-means-NotFound case. -/
theorem public_lookup_shape_eval :
    AnalysisService.get_analysis_by_share_token [demoRowPendingNull]
        "pending_token_123" =
      .error (503, "Failed to get analysis by share token: validation error") ∧
    AnalysisService.get_analysis_by_share_token [] "missing" =
      .error (503, "Failed to get analysis by share token: 503: Analysis not found") ∧
    AnalysisService.get_analysis_by_share_token [demoRowPendingFull] "tok2" =
      .ok { rating_text := "TEST RATING"
            rating_description := "Desc."
            x_axis_pos := 0.5
            y_axis_pos := 0.5
            analyzed_at := 0 } ∧
    demoRowPendingFull.status ≠ AnalysisStatus.completed :=
  ⟨rfl, rfl, rfl, by decide⟩

/-! ## C3 -/

/-- C3, evaluation of the failing run: in a background execution in which
token acquisition, data collection, the AI inference call (returning the
four-field schema of the client itself) and share-token issuance ALL succeed, the
job does not transition to COMPLETED — the result write subscripts the
missing x_axis_pos key of the inference dict, and the exception handler
commits the job as FAILED with the key error recorded and only the two text
fields written. -/
theorem ai_success_run_marked_failed :
    BackgroundTasks.process_music_analysis_task demoTaskEnvAI [demoJobPending] 1 =
      [{ id := 1
         user_id := 7
         status := .failed
         error_message := some ("KeyError: x_axis_pos")
         rating_text := some ("NOSTALGIC MILLENNIAL")
         rating_description := some ("Roast.")
         started_at := some 0
         completed_at := some 1 }] ∧
    analyze_music_taste demoTaskEnvAI.ai_reply =
      .ok demoReplySchema := by
  constructor
  · rfl
  · have h : analyze_music_taste_validate demoReplySchema = .ok demoReplySchema := by
      apply (validate_ok_iff demoReplySchema demoReplySchema).mpr
      refine ⟨rfl, rfl, rfl, rfl, ?_⟩
      simp [demoReplySchema]
      norm_num [clamp_score]
    show analyze_music_taste (.ok demoReplySchema) = .ok demoReplySchema
    simp [analyze_music_taste, h]

/-! ## C1 -/

/-- Membership after a row-replacing commit: the new row or an original
one. -/
theorem replaceJob_mem {db : JobTable} {a j : Job}
    (h : j ∈ replaceJob db a) : j = a ∨ j ∈ db := by
  unfold replaceJob at h
  obtain ⟨x, hx, hfx⟩ := List.mem_map.mp h
  by_cases hid : (x.id == a.id) = true
  · left; rw [← hfx]; simp [hid]
  · right
    rw [← hfx]
    simp only [hid, Bool.false_eq_true, if_neg, not_false_eq_true]
    exact hx

/-- Every verdict carries the four persisted keys. -/
theorem verdict_keys (rt desc : String) (x y : ℚ) :
    has_persisted_keys (verdict rt desc x y) := by
  simp [verdict, has_persisted_keys]

/-- The background fallback engine always returns a dict with the four
persisted keys. -/
theorem fallback_bg_keys (md : MusicData) :
    has_persisted_keys (BackgroundTasks.fallback_analysis md) := by
  unfold BackgroundTasks.fallback_analysis fallback_mainstream_branch
    fallback_underground_branch
  dsimp only
  repeat' split
  all_goals exact verdict_keys _ _ _ _

/-- A successful wrapped inference call comes from a successful
validation. -/
theorem analyze_ok_validate (reply r : AnalysisDict)
    (h : analyze_music_taste (.ok reply) = .ok r) :
    analyze_music_taste_validate reply = .ok r := by
  unfold analyze_music_taste at h
  cases hval : analyze_music_taste_validate reply with
  | error e => simp [hval] at h
  | ok a => simp only [hval] at h; exact h

/-- Whatever branch `_analyze_music_with_ai` takes, the resulting dict has
the four persisted keys — provided a successful raw reply carries the two
score-position keys. -/
theorem analyze_with_ai_keys (ai_reply : Except String AnalysisDict)
    (md : MusicData)
    (hai : ∀ d, ai_reply = .ok d → d.x_axis_pos.isSome ∧ d.y_axis_pos.isSome) :
    has_persisted_keys (analyze_music_with_ai BackgroundTasks.fallback_analysis
      (analyze_music_taste ai_reply) md) := by
  unfold analyze_music_with_ai
  split
  · simp [mysterious_listener, verdict, has_persisted_keys]
  · cases hr : analyze_music_taste ai_reply with
    | error e => exact fallback_bg_keys md
    | ok r =>
      cases har : ai_reply with
      | error e => rw [har] at hr; simp [analyze_music_taste] at hr
      | ok reply =>
        rw [har] at hr
        have hv := analyze_ok_validate reply r hr
        obtain ⟨h1, h2, h3, h4, rfl⟩ := (validate_ok_iff reply r).mp hv
        obtain ⟨hx, hy⟩ := hai reply har
        exact ⟨h1, h2, hx, hy⟩

/-- A successful result write populates every result field, including the
share token. -/
theorem write_results_ok_fields (a : Job) (d : AnalysisDict) (tok : String)
    (aw : Job) (h : write_results a d tok = .ok aw) :
    result_fields_all_some aw := by
  unfold write_results at h
  cases h1 : d.rating_text with
  | none => rw [h1] at h; simp at h
  | some rt =>
    rw [h1] at h
    cases h2 : d.rating_description with
    | none => rw [h2] at h; simp at h
    | some rd =>
      rw [h2] at h
      cases h3 : d.x_axis_pos with
      | none => rw [h3] at h; simp at h
      | some x =>
        rw [h3] at h
        cases h4 : d.y_axis_pos with
        | none => rw [h4] at h; simp at h
        | some y =>
          rw [h4] at h
          simp only [Except.ok.injEq] at h
          subst h
          simp [result_fields_all_some]

/-- A dict with all four persisted keys never fails the result write. -/
theorem write_results_ok_of_keys (a : Job) (d : AnalysisDict) (tok : String)
    (hd : has_persisted_keys d) : ∃ aw, write_results a d tok = .ok aw := by
  obtain ⟨h1, h2, h3, h4⟩ := hd
  obtain ⟨rt, hrt⟩ := Option.isSome_iff_exists.mp h1
  obtain ⟨rd, hrd⟩ := Option.isSome_iff_exists.mp h2
  obtain ⟨x, hx⟩ := Option.isSome_iff_exists.mp h3
  obtain ⟨y, hy⟩ := Option.isSome_iff_exists.mp h4
  unfold write_results
  rw [hrt, hrd, hx, hy]
  exact ⟨_, rfl⟩

/-- A successful pipeline step yields a COMPLETED row with every result
field populated. -/
theorem task_step_ok (env : TaskEnv) (db1 : JobTable) (a1 a2 : Job)
    (h : BackgroundTasks.task_step env db1 a1 = .ok a2) :
    a2.status = .completed ∧ result_fields_all_some a2 := by
  unfold BackgroundTasks.task_step at h
  cases hf : fetch_user_music_data env.token_result env.client with
  | error e => simp [hf] at h
  | ok md =>
    simp only [hf] at h
    cases hg : generate_unique_share_token env.choices db1 with
    | error e => simp [hg] at h
    | ok tok =>
      simp only [hg] at h
      cases hw : write_results a1 (analyze_music_with_ai
          BackgroundTasks.fallback_analysis
          (analyze_music_taste env.ai_reply) md) tok with
      | error p => simp [hw, Except.map] at h
      | ok aw =>
        simp only [hw, Except.map, Except.ok.injEq] at h
        subst h
        obtain ⟨k1, k2, k3, k4, k5⟩ := write_results_ok_fields _ _ _ _ hw
        exact ⟨rfl, k1, k2, k3, k4, k5⟩

/-- A failed pipeline step whose reply carries the score-position keys (so
the write itself cannot fail mid-way) hands the exception handler a row
whose result fields are untouched. -/
theorem task_step_error (env : TaskEnv) (db1 : JobTable) (a1 aerr : Job)
    (msg : String)
    (hfields : result_fields_all_none a1)
    (hai : ∀ d, env.ai_reply = .ok d → d.x_axis_pos.isSome ∧ d.y_axis_pos.isSome)
    (h : BackgroundTasks.task_step env db1 a1 = .error (aerr, msg)) :
    result_fields_all_none aerr := by
  unfold BackgroundTasks.task_step at h
  cases hf : fetch_user_music_data env.token_result env.client with
  | error e =>
    simp only [hf, Except.error.injEq, Prod.mk.injEq] at h
    rw [← h.1]
    exact hfields
  | ok md =>
    simp only [hf] at h
    cases hg : generate_unique_share_token env.choices db1 with
    | error e =>
      simp only [hg, Except.error.injEq, Prod.mk.injEq] at h
      rw [← h.1]
      exact hfields
    | ok tok =>
      simp only [hg] at h
      obtain ⟨aw, hw⟩ := write_results_ok_of_keys a1
        (analyze_music_with_ai BackgroundTasks.fallback_analysis
          (analyze_music_taste env.ai_reply) md) tok
        (analyze_with_ai_keys env.ai_reply md hai)
      simp [hw, Except.map] at h

/-- C1 (amended): for every background execution run against a table of
invariant-respecting rows whose target row still has all result fields
null, and whose raw inference reply — when successful — carries the
persisted score-position keys, every row of the resulting table satisfies
the all-or-nothing invariant: all result fields null unless COMPLETED, all
populated when COMPLETED.  (As stated the original claim is refuted by the
legacy synchronous path, which persists fully populated rows whose status
stays PENDING — see the counterexample — and, absent the key proviso, by
the schema mismatch of C3, which commits a partially populated FAILED
row.) -/
theorem background_all_or_nothing (env : TaskEnv) (db : JobTable) (aid : Nat)
    (hdb : ∀ j ∈ db, all_or_nothing j)
    (htarget : ∀ j, findById db aid = some j → result_fields_all_none j)
    (hai : ∀ d, env.ai_reply = .ok d → d.x_axis_pos.isSome ∧ d.y_axis_pos.isSome) :
    ∀ j ∈ BackgroundTasks.process_music_analysis_task env db aid,
      all_or_nothing j := by
  intro j hj
  unfold BackgroundTasks.process_music_analysis_task at hj
  cases hfind : findById db aid with
  | none => simp only [hfind] at hj; exact hdb j hj
  | some a0 =>
    simp only [hfind] at hj
    have ha0 : result_fields_all_none a0 := htarget a0 hfind
    have ha1 : result_fields_all_none (BackgroundTasks.processing_row env a0) := by
      obtain ⟨f1, f2, f3, f4, f5⟩ := ha0
      exact ⟨f1, f2, f3, f4, f5⟩
    have hmid : all_or_nothing (BackgroundTasks.processing_row env a0) := by
      constructor
      · intro hcomp
        simp [BackgroundTasks.processing_row] at hcomp
      · intro _
        exact ha1
    cases hstep : BackgroundTasks.task_step env
        (replaceJob db (BackgroundTasks.processing_row env a0))
        (BackgroundTasks.processing_row env a0) with
    | ok a2 =>
      simp only [hstep] at hj
      obtain ⟨hcomp, hsome⟩ := task_step_ok _ _ _ _ hstep
      rcases replaceJob_mem hj with rfl | hj1
      · exact ⟨fun _ => hsome, fun hne => absurd hcomp hne⟩
      · rcases replaceJob_mem hj1 with rfl | hj2
        · exact hmid
        · exact hdb j hj2
    | error p =>
      obtain ⟨aerr, msg⟩ := p
      simp only [hstep] at hj
      have herr : result_fields_all_none aerr :=
        task_step_error env _ _ aerr msg ha1 hai hstep
      rcases replaceJob_mem hj with rfl | hj1
      · constructor
        · intro hcomp
          exact nomatch hcomp
        · intro _
          obtain ⟨f1, f2, f3, f4, f5⟩ := herr
          exact ⟨f1, f2, f3, f4, f5⟩
      · rcases replaceJob_mem hj1 with rfl | hj2
        · exact hmid
        · exact hdb j hj2

/-- Witness for C1: a background run whose token acquisition fails, against
a fresh pending row, commits a FAILED row that satisfies the all-or-nothing
invariant. -/
theorem background_all_or_nothing_witness :
    all_or_nothing
      { id := 1
        user_id := 7
        status := .failed
        error_message := some ("Failed to fetch music data: boom")
        started_at := some 0
        completed_at := some 1 } :=
  background_all_or_nothing demoTaskEnvTokenFail [demoJobPending] 1
    (by decide)
    (fun j hj => by injection hj with h; subst h; decide)
    (fun d hd => by simp [demoTaskEnvTokenFail] at hd)
    _ (by decide)

/-- C1, counterexample to the claim as stated: the legacy synchronous
analyze path persists a row whose result fields are ALL populated while its
status remains PENDING — a persisted row with status other than COMPLETED
and non-null result fields, contradicting the all-or-nothing invariant. -/
theorem completeness_invariant_counterexample :
    (AnalysisService.analyze_user_music_taste demoLegacyEnv [] 7 1).2 =
        [demoLegacyRow] ∧
    demoLegacyRow.status ≠ AnalysisStatus.completed ∧
    demoLegacyRow.rating_text = some ("MYSTERIOUS LISTENER") ∧
    ¬ result_fields_all_none demoLegacyRow ∧
    ¬ all_or_nothing demoLegacyRow :=
  ⟨rfl, by decide, rfl, by decide, by decide⟩

end UnwrappedFM
